import Mathlib

/-!
Verification of the core of `django-queryparams-parser`.

This file gives a shallow embedding of the query-parameter type catalog
(`params.py`) and of the registry request-validation routine
(`_main.py` : `QueryParamRegistry.validate_request_params`), and proves the
spec claims about them.

Conventions of the embedding:
- Python exceptions are modelled by the `PyError` type; a Python function
  that can raise is modelled as returning `Except PyError _`.
- Python dynamic values flowing through parse and check code are modelled
  by the `Value` type.
- Attribute lookup of the bound check methods that `__init__` appends to
  `self._value_checks` is modelled by `pyGetattr` over an explicit method
  table per class, copied from the `def` lines of the source; a name that
  is not in the table yields `AttributeError`, exactly as in Python.
- Quote characters appearing inside Python f-string messages are elided
  from the modelled message texts.
-/

namespace DjangoQP

/-- Python exceptions raised by the code under `src/`.  `invalidQueryParameter`
models the `InvalidQueryParameter` exception class of `params.py`; the others
model builtin Python exceptions.  Per `spec.md` section 7, `ConfigurationError`
is realized in this codebase as `TypeError`/`ValueError` raised at
construction time. -/
inductive PyError where
  | typeError (msg : String)
  | valueError (msg : String)
  | attributeError (attr : String)
  | indexError
  | recursionError
  | invalidQueryParameter (msg : String)
deriving DecidableEq, Repr

/-- Python runtime values handled by the catalog: raw query strings, parsed
integers, booleans, and `datetime.date` objects (year, month, day). -/
inductive Value where
  | int (n : Int)
  | str (s : String)
  | bool (b : Bool)
  | date (y m d : Nat)
deriving DecidableEq, Repr

/-- Python truthiness of a value (`bool(v)`). -/
def pyTruthy : Value → Bool
  | Value.int n => n != 0
  | Value.str s => s != ""
  | Value.bool b => b
  | Value.date _ _ _ => true

/-- Python truthiness of an optional value; `None` is falsy. -/
def pyTruthyOpt : Option Value → Bool
  | none => false
  | some v => pyTruthy v

/-- Python `a < b` on catalog values; comparing unrelated types raises
`TypeError`, as in Python. `False < True` holds for Python bools. -/
def Value.pyLt : Value → Value → Except PyError Bool
  | Value.int a, Value.int b => Except.ok (decide (a < b))
  | Value.bool a, Value.bool b => Except.ok (!a && b)
  | Value.int a, Value.bool b => Except.ok (decide (a < (cond b 1 0)))
  | Value.bool a, Value.int b => Except.ok (decide ((cond a 1 0 : Int) < b))
  | Value.date y m d, Value.date y2 m2 d2 =>
      Except.ok (decide (y < y2 ∨ (y = y2 ∧ (m < m2 ∨ (m = m2 ∧ d < d2)))))
  | _, _ => Except.error (PyError.typeError "unorderable types")

/-- Python `a <= b` on catalog values. -/
def Value.pyLe : Value → Value → Except PyError Bool
  | Value.int a, Value.int b => Except.ok (decide (a ≤ b))
  | Value.bool a, Value.bool b => Except.ok (!a || b)
  | Value.int a, Value.bool b => Except.ok (decide (a ≤ (cond b 1 0)))
  | Value.bool a, Value.int b => Except.ok (decide ((cond a 1 0 : Int) ≤ b))
  | Value.date y m d, Value.date y2 m2 d2 =>
      Except.ok (decide (y < y2 ∨ (y = y2 ∧ (m < m2 ∨ (m = m2 ∧ d ≤ d2)))))
  | _, _ => Except.error (PyError.typeError "unorderable types")

/-! ### A model of Python `int(string)` parsing (base 10)

CPython `int(s)` strips surrounding whitespace, accepts one optional sign,
then a nonempty run of decimal digits in which single underscores may appear
between digits.  We model the ASCII subset (the claims only exercise ASCII). -/

/-- ASCII decimal digit test. -/
def isDigitChar (c : Char) : Bool :=
  48 ≤ c.toNat && c.toNat ≤ 57

/-- ASCII whitespace stripped by Python `int()` / `str.strip()`. -/
def isSpaceChar (c : Char) : Bool :=
  c == ' ' || c == '\t' || c == '\n' || c == '\r' || c == '\x0b' || c == '\x0c'

/-- Strip whitespace from both ends of a character list. -/
def trimWS (l : List Char) : List Char :=
  ((l.dropWhile isSpaceChar).reverse.dropWhile isSpaceChar).reverse

/-- After an initial digit, the rest of a Python integer literal body:
empty, or an optional single underscore followed by a digit, repeatedly. -/
def okDigitsTail : List Char → Bool
  | [] => true
  | c :: rest =>
      if c = '_' then
        match rest with
        | [] => false
        | d :: rest2 => isDigitChar d && okDigitsTail rest2
      else
        isDigitChar c && okDigitsTail rest

/-- A valid (unsigned) Python integer literal body: a digit followed by a
valid tail. -/
def okDigitsU : List Char → Bool
  | [] => false
  | c :: rest => isDigitChar c && okDigitsTail rest

/-- Numeric value of a digit character. -/
def digitVal (c : Char) : Nat := c.toNat - 48

/-- Value of a digit-character list (underscores removed first, as CPython
does before converting). -/
def udigitsVal (l : List Char) : Nat :=
  (l.filter (fun c => c != '_')).foldl (fun acc c => 10 * acc + digitVal c) 0

/-- Core of the `int()` model, applied to the whitespace-trimmed characters. -/
def pyParseIntCore (cs : List Char) : Option Int :=
  match cs with
  | [] => none
  | c :: rest =>
      if c = '+' then
        if okDigitsU rest then some (Int.ofNat (udigitsVal rest)) else none
      else if c = '-' then
        if okDigitsU rest then some (-(Int.ofNat (udigitsVal rest))) else none
      else
        if okDigitsU cs then some (Int.ofNat (udigitsVal cs)) else none

/-- Model of Python `int(s)` for base 10: `none` corresponds to the
`ValueError` that `Int.parse` catches. -/
def pyParseInt (s : String) : Option Int :=
  pyParseIntCore (trimWS s.toList)

/-! ### Decimal rendering of integers (for the round-trip claim C4) -/

/-- Character of a single digit. -/
def digitChar : Nat → Char
  | 0 => '0' | 1 => '1' | 2 => '2' | 3 => '3' | 4 => '4'
  | 5 => '5' | 6 => '6' | 7 => '7' | 8 => '8' | _ => '9'

/-- Fuelled most-significant-first decimal digits of a natural number. -/
def natCharsAux : Nat → Nat → List Char
  | 0, _ => []
  | fuel + 1, m =>
      if m < 10 then [digitChar m]
      else natCharsAux fuel (m / 10) ++ [digitChar (m % 10)]

/-- Decimal digits of a natural number, most significant first. -/
def natChars (m : Nat) : List Char := natCharsAux (m + 1) m

/-- Decimal string rendering of a natural number (as Python `str(n)`). -/
def renderNat (m : Nat) : String := String.mk (natChars m)

/-- Decimal string rendering of an integer (as Python `str(n)`): a minus
sign followed by the digits for negative numbers, just the digits otherwise. -/
def renderInt (n : Int) : String :=
  if n < 0 then "-" ++ renderNat (-n).toNat else renderNat n.toNat

/-- ASCII lowercasing of one character (models `str.lower` on the ASCII
token strings exercised here). -/
def asciiLower (c : Char) : Char :=
  if 65 ≤ c.toNat && c.toNat ≤ 90 then Char.ofNat (c.toNat + 32) else c

/-- ASCII model of Python `str.lower()`. -/
def pyLower (s : String) : String := String.mk (s.toList.map asciiLower)

/-! ### A model of `datetime.date.fromisoformat` -/

/-- Gregorian leap-year test, as `datetime` uses. -/
def isLeap (y : Nat) : Bool :=
  (y % 4 == 0 && y % 100 != 0) || y % 400 == 0

/-- Days in a month of a year, as `datetime` uses. -/
def daysInMonth (y m : Nat) : Nat :=
  if m = 2 then (if isLeap y then 29 else 28)
  else if m = 4 ∨ m = 6 ∨ m = 9 ∨ m = 11 then 30
  else 31

/-- Model of `date.fromisoformat` on the canonical `YYYY-MM-DD` form:
four digit year, dash, two digit month, dash, two digit day, all denoting a
valid calendar date (year at least 1).  Any other input yields `none`
(the `ValueError` that `Date.parse` catches). -/
def dateFromIso (s : String) : Option (Nat × Nat × Nat) :=
  match s.toList with
  | [y1, y2, y3, y4, s1, m1, m2, s2, d1, d2] =>
      if (isDigitChar y1 && isDigitChar y2 && isDigitChar y3 && isDigitChar y4 &&
          isDigitChar m1 && isDigitChar m2 && isDigitChar d1 && isDigitChar d2) &&
         s1 = '-' && s2 = '-' then
        let y := ((digitVal y1 * 10 + digitVal y2) * 10 + digitVal y3) * 10 + digitVal y4
        let m := digitVal m1 * 10 + digitVal m2
        let d := digitVal d1 * 10 + digitVal d2
        if 1 ≤ y && 1 ≤ m && m ≤ 12 && 1 ≤ d && d ≤ daysInMonth y m then
          some (y, m, d)
        else none
      else none
  | _ => none

/-- Single-character replacement (models `str.replace(sep, "-")` for the
one-character separators that `Date` admits). -/
def charReplace (s : String) (old new : Char) : String :=
  String.mk (s.toList.map (fun c => if c = old then new else c))

/-! ### Parameter objects: state and checks

A constructed `QueryParam` object is modelled by a `PState` carrying the
attributes that `__init__` assigns, plus the accumulated `_value_checks`
list.  Each check method of the source is one `Check` constructor; its body
is reproduced in `runCheck`. -/

/-- A user-supplied validator: takes (raw value, parsed value), raises to
reject (the `validators` constructor argument of `QueryParam`). -/
abbrev CustomVal : Type := Value → Value → Except PyError Unit

/-- The value-check methods defined in `params.py` (each constructor is one
`def` of the source), plus `custom` for user-supplied validators. -/
inductive Check where
  | oneOfChoices
  | lowerBound
  | upperBound
  | bothBounds
  | leadZeros
  | plusSign
  | leadZerosAndPlusSign
  | emptyString
  | minLength
  | maxLength
  | minMaxLength
  | custom (f : CustomVal)

/-- The attributes a constructed catalog object holds (`Bool` aside, which
has its own state below).  `max_length` stays `none` because
`Str.__init__` never assigns `self.max_length` (it assigns `self.min_length`
twice). -/
structure PState where
  name : String
  required : Bool
  many : Bool
  choices : List Value
  value_checks : List Check
  min_value : Option Value
  max_value : Option Value
  min_length : Option Int
  max_length : Option Int

/-- Append checks to `self._value_checks`. -/
def PState.addChecks (st : PState) (cs : List Check) : PState :=
  PState.mk st.name st.required st.many st.choices (st.value_checks ++ cs)
    st.min_value st.max_value st.min_length st.max_length

/-- Append one check to `self._value_checks`. -/
def PState.addCheck (st : PState) (c : Check) : PState := st.addChecks [c]

/-- Assign `self.min_value`. -/
def PState.setMin (st : PState) (v : Option Value) : PState :=
  PState.mk st.name st.required st.many st.choices st.value_checks
    v st.max_value st.min_length st.max_length

/-- Assign `self.max_value`. -/
def PState.setMax (st : PState) (v : Option Value) : PState :=
  PState.mk st.name st.required st.many st.choices st.value_checks
    st.min_value v st.min_length st.max_length

/-- Assign `self.min_length`. -/
def PState.setMinLength (st : PState) (v : Option Int) : PState :=
  PState.mk st.name st.required st.many st.choices st.value_checks
    st.min_value st.max_value v st.max_length

/-- Attribute lookup on an object, restricted to the check methods: the
table lists the names bound by the `def` lines of the class (and its base
classes); looking up a missing name raises `AttributeError`, as Python
does for `self._check_lower_bound` when only `check_lower_bound` is
defined. -/
def pyGetattr (table : List (String × Check)) (attr : String) : Except PyError Check :=
  match table.find? (fun e => e.1 == attr) with
  | some e => Except.ok e.2
  | none => Except.error (PyError.attributeError attr)

/-- Python comparison `parsed > self.min_value` (or `< self.max_value`)
where the bound attribute may be `None`; comparing with `None` raises
`TypeError`. -/
def pyGtOpt (a : Value) (b : Option Value) : Except PyError Bool :=
  match b with
  | none => Except.error (PyError.typeError "not supported between instances")
  | some bv => Value.pyLt bv a

/-- Python comparison `parsed < self.max_value` with an optional bound. -/
def pyLtOpt (a : Value) (b : Option Value) : Except PyError Bool :=
  match b with
  | none => Except.error (PyError.typeError "not supported between instances")
  | some bv => Value.pyLt a bv

/-- Python `len(value)` : defined on strings, `TypeError` otherwise. -/
def pyLen : Value → Except PyError Int
  | Value.str s => Except.ok (Int.ofNat s.length)
  | _ => Except.error (PyError.typeError "object has no len")

/-- Python `value[0]` on a raw value : defined on nonempty strings;
`IndexError` on the empty string, `TypeError` otherwise. -/
def pyFirstChar : Value → Except PyError Char
  | Value.str s =>
      match s.toList with
      | [] => Except.error PyError.indexError
      | c :: _ => Except.ok c
  | _ => Except.error (PyError.typeError "object is not subscriptable")

/-- Bodies of the check methods of `params.py`, reproduced bug for bug:
- `check_lower_bound`: `if not parsed > self.min_value: raise`
  (note the strict comparison);
- `check_upper_bound`: `if not parsed < self.max_value: raise`;
- `check_upper_and_lower_bounds`: inclusive two-sided comparison;
- `check_lead_zeros`: its first branch compares a string slice with the
  list `["0"]`, which is always false in Python, so only the second branch
  can fire;
- `check_lead_zeros_and_plus_sign`: its final `elif value != "-0"` rejects
  every value other than `"-0"` that survived the first two branches;
- `check_min_length`: `if not len(value) < self.min_length: raise`
  (inverted); `check_max_length` likewise;
- `check_empty_string` reads `self.allow_empty`, an attribute no
  constructor assigns, hence `AttributeError` if it ever ran. -/
def runCheck (st : PState) (c : Check) (value parsed : Value) : Except PyError Unit :=
  match c with
  | Check.oneOfChoices =>
      if parsed ∈ st.choices then Except.ok ()
      else Except.error (PyError.invalidQueryParameter "")
  | Check.lowerBound => do
      let g ← pyGtOpt parsed st.min_value
      if g then Except.ok () else Except.error (PyError.invalidQueryParameter "")
  | Check.upperBound => do
      let l ← pyLtOpt parsed st.max_value
      if l then Except.ok () else Except.error (PyError.invalidQueryParameter "")
  | Check.bothBounds => do
      let lo ← match st.min_value with
        | none => Except.error (PyError.typeError "not supported between instances")
        | some mv => Value.pyLe mv parsed
      if lo then do
        let hi ← match st.max_value with
          | none => Except.error (PyError.typeError "not supported between instances")
          | some mv => Value.pyLe parsed mv
        if hi then Except.ok () else Except.error (PyError.invalidQueryParameter "")
      else Except.error (PyError.invalidQueryParameter "")
  | Check.leadZeros => do
      let c0 ← pyFirstChar value
      -- first branch: `value[1:2] == ["0"]` is a str-vs-list comparison,
      -- always false, so the branch never raises
      match value with
      | Value.str s =>
          if c0 = '0' ∧ s.length > 1 then
            Except.error (PyError.invalidQueryParameter "")
          else Except.ok ()
      | _ => Except.ok ()
  | Check.plusSign => do
      let c0 ← pyFirstChar value
      if c0 = '+' then Except.error (PyError.invalidQueryParameter "")
      else Except.ok ()
  | Check.leadZerosAndPlusSign => do
      let c0 ← pyFirstChar value
      if c0 = '+' then Except.error (PyError.invalidQueryParameter "")
      else
        match value with
        | Value.str s =>
            if c0 = '0' ∧ s ≠ "0" then Except.error (PyError.invalidQueryParameter "")
            else if s ≠ "-0" then Except.error (PyError.invalidQueryParameter "")
            else Except.ok ()
        | _ => Except.ok ()
  | Check.emptyString => Except.error (PyError.attributeError "allow_empty")
  | Check.minLength => do
      let len ← pyLen value
      match st.min_length with
      | none => Except.error (PyError.typeError "not supported between instances")
      | some k =>
          if len < k then Except.ok ()
          else Except.error (PyError.invalidQueryParameter "")
  | Check.maxLength => do
      let len ← pyLen value
      match st.max_length with
      | none => Except.error (PyError.typeError "not supported between instances")
      | some k =>
          if len > k then Except.ok ()
          else Except.error (PyError.invalidQueryParameter "")
  | Check.minMaxLength => do
      let len ← pyLen value
      match st.min_length with
      | none => Except.error (PyError.typeError "not supported between instances")
      | some lo =>
          if lo ≤ len then
            match st.max_length with
            | none => Except.error (PyError.typeError "not supported between instances")
            | some hi =>
                if len ≤ hi then Except.ok ()
                else Except.error (PyError.invalidQueryParameter "")
          else Except.error (PyError.invalidQueryParameter "")
  | Check.custom f => f value parsed

/-- Run a list of checks in order, stopping at the first raise. -/
def runChecksList (st : PState) : List Check → Value → Value → Except PyError Unit
  | [], _, _ => Except.ok ()
  | c :: rest, value, parsed => do
      runCheck st c value parsed
      runChecksList st rest value parsed

/-- Model of `QueryParam._check`: run every accumulated check in order. -/
def runChecks (st : PState) (value parsed : Value) : Except PyError Unit :=
  runChecksList st st.value_checks value parsed

/-- Model of `QueryParam.validate_single`: parse, then run the checks, then return
the parsed value. -/
def QueryParam.validate_single (parse : Value → Except PyError Value)
    (st : PState) (value : Value) : Except PyError Value := do
  let parsed ← parse value
  runChecks st value parsed
  Except.ok parsed

/-- Model of `QueryParam.validate_all`: a declaration not marked `many` accepts
exactly one raw value; otherwise every raw value is validated in order. -/
def QueryParam.validate_all (parse : Value → Except PyError Value)
    (st : PState) (values : List String) : Except PyError (List Value) :=
  if st.many || values.length == 1 then
    values.mapM (fun v => QueryParam.validate_single parse st (Value.str v))
  else
    Except.error (PyError.invalidQueryParameter
      ("Expected 1 value, got " ++ toString values.length))

/-- Python set comprehension over validated choices: deduplicate, keeping
first occurrences (only membership in the result is ever used). -/
def pydedup (l : List Value) : List Value :=
  l.foldl (fun acc v => if v ∈ acc then acc else acc ++ [v]) []

/-! ### Method tables (the `def` lines of each class, base classes included) -/

/-- Check methods defined on `QueryParam`. -/
def QueryParam.methodTable : List (String × Check) :=
  [("_check_one_of_choices", Check.oneOfChoices)]

/-- Check methods visible on a `BoundedParam` instance.  Note the bound
check methods are defined without a leading underscore. -/
def BoundedParam.methodTable : List (String × Check) :=
  QueryParam.methodTable ++
  [("check_lower_bound", Check.lowerBound),
   ("check_upper_bound", Check.upperBound),
   ("check_upper_and_lower_bounds", Check.bothBounds)]

/-- Check methods visible on a `Number` (hence `Int`, `PositiveInt`)
instance. -/
def Number.methodTable : List (String × Check) :=
  BoundedParam.methodTable ++
  [("check_lead_zeros", Check.leadZeros),
   ("check_plus_sign", Check.plusSign),
   ("check_lead_zeros_and_plus_sign", Check.leadZerosAndPlusSign)]

/-- Check methods visible on a `Str` instance. -/
def Str.methodTable : List (String × Check) :=
  QueryParam.methodTable ++
  [("check_empty_string", Check.emptyString),
   ("check_min_length", Check.minLength),
   ("check_max_length", Check.maxLength),
   ("check_min_and_max_length", Check.minMaxLength)]

/-! ### Constructors -/

/-- Model of `QueryParam.__init__`: record name/required/many, reject
`choices` together with `validators`, validate and coerce the choices with
the checks accumulated so far (none at that point), then register the
choice membership check and the custom validators.  The `isinstance`
guards of the source hold by typing here. -/
def QueryParam.init (parse : Value → Except PyError Value) (name : String)
    (required many : Bool) (choices : Option (List String))
    (validators : Option (List CustomVal)) : Except PyError PState := do
  if choices.isSome && validators.isSome then
    Except.error (PyError.valueError "Only one of choices or validators is allowed")
  else
    let base := PState.mk name required many [] [] none none none none
    let withChoices ← match choices with
      | none => Except.ok base
      | some cs => do
          let vals ← cs.mapM (fun c => QueryParam.validate_single parse base (Value.str c))
          -- `self.choices = choices or set()` : an empty set stays empty
          Except.ok (PState.mk name required many (pydedup vals)
            [Check.oneOfChoices] none none none none)
    match validators with
    | none => Except.ok withChoices
    | some fs => Except.ok (withChoices.addChecks (fs.map Check.custom))

/-- Validate an optional bound with `self.validate_single` (used for
`min_value` / `max_value`). -/
def optValidate (parse : Value → Except PyError Value) (st : PState) :
    Option Value → Except PyError (Option Value)
  | none => Except.ok none
  | some v => do
      let parsed ← QueryParam.validate_single parse st v
      Except.ok (some parsed)

/-- The `if (self.min_value and self.max_value)` ordering guard of
`BoundedParam.__init__` (lines 130-131): with both bounds truthy,
`max_value < min_value` is a `ValueError`. -/
def boundsOrderCheck (st : PState) : Except PyError Unit :=
  match st.min_value, st.max_value with
  | some a, some b =>
      if pyTruthy a && pyTruthy b then do
        let lt ← Value.pyLt b a
        if lt then Except.error (PyError.valueError "max_value must be >= min_value")
        else Except.ok ()
      else Except.ok ()
  | _, _ => Except.ok ()

/-- Model of `BoundedParam.__init__`: after `QueryParam.__init__`, reject bounds
combined with (nonempty) choices, validate and store each given bound,
check bound ordering, then append the bound check looked up by its
`self._check_...` name in the method table of the instance. -/
def BoundedParam.init (table : List (String × Check))
    (parse : Value → Except PyError Value) (name : String)
    (required many : Bool) (choices : Option (List String))
    (validators : Option (List CustomVal))
    (min_value max_value : Option Value) : Except PyError PState := do
  let st ← QueryParam.init parse name required many choices validators
  if !st.choices.isEmpty && (min_value.isSome || max_value.isSome) then
    Except.error (PyError.valueError
      "min_value and/or max_value can not be clubbed with choices")
  else
    let minv ← optValidate parse st min_value
    let st1 := st.setMin minv
    let maxv ← optValidate parse st1 max_value
    let st2 := st1.setMax maxv
    boundsOrderCheck st2
    if min_value.isSome && max_value.isSome then do
      let c ← pyGetattr table "_check_upper_and_lower_bounds"
      Except.ok (st2.addCheck c)
    else if min_value.isSome then do
      let c ← pyGetattr table "_check_lower_bound"
      Except.ok (st2.addCheck c)
    else if max_value.isSome then do
      let c ← pyGetattr table "_check_upper_bound"
      Except.ok (st2.addCheck c)
    else
      Except.ok st2

/-- Model of `Number.__init__`: after `BoundedParam.__init__`, append the strictness
checks selected by the `allow_lead_zeros` / `allow_plus_sign` flags, looked
up by their `self._check_...` names. -/
def Number.init (table : List (String × Check))
    (parse : Value → Except PyError Value) (name : String)
    (required many : Bool) (choices : Option (List String))
    (validators : Option (List CustomVal))
    (min_value max_value : Option Value)
    (allow_lead_zeros allow_plus_sign : Bool) : Except PyError PState := do
  let st ← BoundedParam.init table parse name required many choices validators
    min_value max_value
  if !allow_lead_zeros && !allow_plus_sign then do
    let c ← pyGetattr table "_check_lead_zeros_and_plus_sign"
    Except.ok (st.addCheck c)
  else if !allow_lead_zeros then do
    let c ← pyGetattr table "_check_lead_zeros"
    Except.ok (st.addCheck c)
  else if !allow_plus_sign then do
    let c ← pyGetattr table "_check_plus_sign"
    Except.ok (st.addCheck c)
  else
    Except.ok st

/-- Model of `Int.parse`: `int(value)`, with `ValueError` converted to
`InvalidQueryParameter` (with empty message).  `int()` of an `int` or a
`bool` succeeds in Python; of a `date` it raises `TypeError`, which the
`except ValueError` clause does not catch. -/
def Int.parse : Value → Except PyError Value
  | Value.str s =>
      match pyParseInt s with
      | some n => Except.ok (Value.int n)
      | none => Except.error (PyError.invalidQueryParameter "")
  | Value.int n => Except.ok (Value.int n)
  | Value.bool b => Except.ok (Value.int (cond b 1 0))
  | Value.date _ _ _ => Except.error (PyError.typeError "int() argument")

/-- Model of `PositiveInt.parse`: like `Int.parse`, then reject negative values. -/
def PositiveInt.parse : Value → Except PyError Value := fun v => do
  let parsed ← Int.parse v
  match parsed with
  | Value.int n =>
      if n < 0 then Except.error (PyError.invalidQueryParameter "")
      else Except.ok (Value.int n)
  | other => Except.ok other

/-- The `kwargs.get("min_value") == 0` test of `Int.__new__` /
`Float.__new__` (Python `==`: `None == 0` is false, `False == 0` is true). -/
def pyEqZero : Option Value → Bool
  | some (Value.int n) => n == 0
  | some (Value.bool b) => !b
  | _ => false

/-- Model of `PositiveInt(name, **kwargs)`: the inherited `Int.__new__` runs first;
with `min_value == 0` it calls `PositiveInt(name, **kwargs)` again, which
is an unbounded recursion — modelled by fuel (Python has a finite recursion
limit, so construction fails with `RecursionError` for every limit).
Otherwise `PositiveInt.__init__` rejects a negative `min_value`
(`kwargs.get("min_value", 0) < 0`) and defers to `Number.__init__`. -/
def PositiveInt.new : Nat → String → Bool → Bool → Option (List String) →
    Option (List CustomVal) → Option Value → Option Value → Bool → Bool →
    Except PyError PState
  | 0, _, _, _, _, _, _, _, _, _ => Except.error PyError.recursionError
  | fuel + 1, name, required, many, choices, validators, min_value,
      max_value, alz, aps =>
    if pyEqZero min_value then
      PositiveInt.new fuel name required many choices validators min_value
        max_value alz aps
    else do
      let neg ← Value.pyLt (min_value.getD (Value.int 0)) (Value.int 0)
      if neg then
        Except.error (PyError.valueError "")
      else
        Number.init Number.methodTable PositiveInt.parse name required many
          choices validators min_value max_value alz aps

/-- Model of `Int(name, **kwargs)`: `Int.__new__` silently substitutes a
`PositiveInt` when `min_value == 0`; otherwise `Number.__init__` runs with
`Int.parse`. -/
def Int.new : Nat → String → Bool → Bool → Option (List String) →
    Option (List CustomVal) → Option Value → Option Value → Bool → Bool →
    Except PyError PState
  | 0, _, _, _, _, _, _, _, _, _ => Except.error PyError.recursionError
  | fuel + 1, name, required, many, choices, validators, min_value,
      max_value, alz, aps =>
    if pyEqZero min_value then
      PositiveInt.new fuel name required many choices validators min_value
        max_value alz aps
    else
      Number.init Number.methodTable Int.parse name required many choices
        validators min_value max_value alz aps

/-- Model of `Str.parse`: identity coercion. -/
def Str.parse : Value → Except PyError Value := fun v => Except.ok v

/-- Python truthiness of an optional int (`if min_length:`): `None` and
`0` are falsy. -/
def optIntTruthy : Option Int → Bool
  | none => false
  | some n => n != 0

/-- Model of `Str.__init__`, reproduced bug for bug: the `max_length` block
re-checks `min_length < 1` (so `Str` with only a `max_length` evaluates
`None < 1`, a `TypeError`), `self.min_length` is assigned twice and
`self.max_length` never, and the length checks are appended under
`self._check_...` names that are not defined. -/
def Str.init (name : String) (required many : Bool)
    (choices : Option (List String)) (validators : Option (List CustomVal))
    (min_length max_length : Option Int) : Except PyError PState := do
  let st ← QueryParam.init Str.parse name required many choices validators
  if !st.choices.isEmpty && (min_length.isSome || max_length.isSome) then
    Except.error (PyError.valueError "")
  else do
    (if optIntTruthy min_length then
      if min_length.getD 0 < 1 then
        Except.error (PyError.valueError "min_length must be a natural number")
      else Except.ok ()
    else Except.ok ())
    let st1 := st.setMinLength min_length
    (if optIntTruthy max_length then
      match min_length with
      | none => Except.error (PyError.typeError
          "not supported between instances of NoneType and int")
      | some k =>
          if k < 1 then
            Except.error (PyError.valueError "max_length must be a natural number")
          else Except.ok ()
    else Except.ok ())
    let st2 := st1.setMinLength min_length
    (match min_length, max_length with
     | some lo, some hi =>
        if optIntTruthy min_length && optIntTruthy max_length && hi < lo then
          Except.error (PyError.valueError "max_length must be >= min_length")
        else Except.ok ()
     | _, _ => Except.ok ())
    if min_length.isSome && max_length.isSome then do
      let c ← pyGetattr Str.methodTable "_check_min_and_max_length"
      Except.ok (st2.addCheck c)
    else if min_length.isSome then do
      let c ← pyGetattr Str.methodTable "_check_min_length"
      Except.ok (st2.addCheck c)
    else if max_length.isSome then do
      let c ← pyGetattr Str.methodTable "_check_max_length"
      Except.ok (st2.addCheck c)
    else
      Except.ok st2

/-- Model of `Date.parse`: normalize the configured separator to a dash, then
`date.fromisoformat`, with `ValueError` turned into
`InvalidQueryParameter`.  Calling it on a non-string raises `TypeError`
(either from `.replace` or from `fromisoformat`), which is not caught. -/
def Date.parse (separator : Char) : Value → Except PyError Value
  | Value.str s =>
      let s1 := if separator ≠ '-' then charReplace s separator '-' else s
      match dateFromIso s1 with
      | some ymd => Except.ok (Value.date ymd.1 ymd.2.1 ymd.2.2)
      | none => Except.error (PyError.invalidQueryParameter "")
  | _ => Except.error (PyError.typeError "fromisoformat argument must be str")

/-- Model of `Date.__init__`: only `-` and `/` are admitted as separators; the
separator is stored before `BoundedParam.__init__` runs (its `parse`
method uses it). -/
def Date.new (name : String) (required many : Bool)
    (choices : Option (List String)) (validators : Option (List CustomVal))
    (min_value max_value : Option Value) (separator : Char) :
    Except PyError (Char × PState) := do
  if separator ≠ '-' ∧ separator ≠ '/' then
    Except.error (PyError.valueError "")
  else do
    let st ← BoundedParam.init BoundedParam.methodTable (Date.parse separator)
      name required many choices validators min_value max_value
    Except.ok (separator, st)

/-! ### The `Bool` class (does not call `QueryParam.__init__`) -/

/-- The attributes `Bool.__init__` assigns. -/
structure BoolState where
  name : String
  truthy : String
  falsy : String
  required : Bool
  explicit : Bool
  ignore_case : Bool
deriving DecidableEq, Repr

/-- Model of `Bool.__init__`: default tokens `"true"` / `"false"`; `required` without
`explicit` is rejected; a truthy `custom_bool` is unpacked into the two
tokens (its length guard `len != 2 and not all(...)` never fires for a
sequence of strings, so a wrong-length sequence fails at tuple unpacking
with `ValueError`). -/
def Bool.init (name : String) (required explicit ignore_case : Bool)
    (custom_bool : Option (List String)) : Except PyError BoolState :=
  if !explicit && required then
    Except.error (PyError.valueError "explicit must be True if required is True")
  else
    match custom_bool with
    | none => Except.ok (BoolState.mk name "true" "false" required explicit ignore_case)
    | some cb =>
        if cb.isEmpty then
          Except.ok (BoolState.mk name "true" "false" required explicit ignore_case)
        else
          match cb with
          | [t, f] => Except.ok (BoolState.mk name t f required explicit ignore_case)
          | _ => Except.error (PyError.valueError "not enough values to unpack")

/-- Model of `Bool.validate_all`: takes the last supplied value (last-wins policy);
the empty string maps to `True` unless the declaration is `explicit`;
otherwise the (optionally lowercased) value is compared with the truthy and
falsy tokens.  `values[-1]` on an empty list raises `IndexError`. -/
def Bool.validate_all (st : BoolState) (values : List String) :
    Except PyError (List Value) :=
  match values.getLast? with
  | none => Except.error PyError.indexError
  | some v0 =>
      if !st.explicit && v0 == "" then Except.ok [Value.bool true]
      else
        let v := if st.ignore_case then pyLower v0 else v0
        if v == st.truthy then Except.ok [Value.bool true]
        else if v == st.falsy then Except.ok [Value.bool false]
        else Except.error (PyError.invalidQueryParameter
          ("Expected one of [" ++ st.truthy ++ ", " ++ st.falsy ++ "], got " ++ v))

/-! ### The registry (`_main.py` : `QueryParamRegistry.validate_request_params`)

The registry treats each declared parameter duck-typed, through its `name`
and `required` attributes and its `validate_all` method; `ParamObj` models
exactly that interface.  A registered pattern is used only through its
`match(path)` capability, modelled as a `String → Bool` function. -/

/-- A declared parameter as the registry sees it. -/
structure ParamObj where
  name : String
  required : Bool
  validateAll : List String → Except PyError (List Value)

/-- View a constructed `QueryParam`-family object as a registry parameter. -/
def ParamObj.ofPState (parse : Value → Except PyError Value) (st : PState) : ParamObj :=
  ParamObj.mk st.name st.required (QueryParam.validate_all parse st)

/-- View a constructed `Bool` object as a registry parameter. -/
def ParamObj.ofBool (st : BoolState) : ParamObj :=
  ParamObj.mk st.name st.required (Bool.validate_all st)

/-- The request `QueryDict` (Django): an association list from parameter
name to the ordered list of supplied raw values. -/
structure QueryDict where
  entries : List (String × List String)

/-- Membership test `param.name in query_dict`. -/
def QueryDict.hasKey (qd : QueryDict) (k : String) : Bool :=
  qd.entries.any (fun e => e.1 == k)

/-- Lookup `query_dict.getlist(name)` (empty when the key is absent). -/
def QueryDict.getlist (qd : QueryDict) (k : String) : List String :=
  match qd.entries.find? (fun e => e.1 == k) with
  | some e => e.2
  | none => []

/-- The `parsed` result: `defaultdict(list)` keyed by parameter name, in
first-touch order. -/
abbrev Parsed : Type := List (String × List Value)

/-- The errors collected for one request.  The source appends the strings
`f"Missing required query param: {name}"` and `f"{str(exc)}: {name}"`; we
keep them structured as (kind, message, name). -/
inductive ErrEntry where
  | missing (name : String)
  | invalid (msg : String) (name : String)
deriving DecidableEq, Repr

/-- Render an error entry to the exact string the source appends. -/
def ErrEntry.render : ErrEntry → String
  | ErrEntry.missing name => "Missing required query param: " ++ name
  | ErrEntry.invalid msg name => msg ++ ": " ++ name

/-- Access `parsed[name]` on the defaultdict: create the (empty) entry if the key
is not yet present.  This happens before `validate_all` is evaluated,
because Python resolves `parsed[param.name].extend` first. -/
def dictTouch (p : Parsed) (k : String) : Parsed :=
  if p.any (fun e => e.1 == k) then p else p ++ [(k, [])]

/-- Extension `parsed[name].extend(vals)` once the entry exists. -/
def dictExtend (p : Parsed) (k : String) (vals : List Value) : Parsed :=
  p.map (fun e => if e.1 == k then (e.1, e.2 ++ vals) else e)

/-- The body of the inner loop of `validate_request_params` for one
declared parameter: present keys are validated (`InvalidQueryParameter`
is collected, any other exception propagates; note the defaultdict entry
is created even when validation then fails); absent required parameters
contribute a missing error; absent optional parameters are skipped. -/
def processParam (qd : QueryDict) (st : Parsed × List ErrEntry) (p : ParamObj) :
    Except PyError (Parsed × List ErrEntry) :=
  if qd.hasKey p.name then
    let touched := dictTouch st.1 p.name
    match p.validateAll (qd.getlist p.name) with
    | Except.ok vals => Except.ok (dictExtend touched p.name vals, st.2)
    | Except.error (PyError.invalidQueryParameter msg) =>
        Except.ok (touched, st.2 ++ [ErrEntry.invalid msg p.name])
    | Except.error e => Except.error e
  else if p.required then
    Except.ok (st.1, st.2 ++ [ErrEntry.missing p.name])
  else
    Except.ok st

/-- The inner loop over one declaration set. -/
def foldParams (qd : QueryDict) : List ParamObj → Parsed × List ErrEntry →
    Except PyError (Parsed × List ErrEntry)
  | [], st => Except.ok st
  | p :: rest, st =>
      match processParam qd st p with
      | Except.ok st2 => foldParams qd rest st2
      | Except.error e => Except.error e

/-- Model of `path.lstrip("/")`. -/
def lstripSlash (path : String) : String :=
  String.mk (path.toList.dropWhile (fun c => c == '/'))

/-- One registry: registration order of (pattern, declaration set). -/
abbrev Registry : Type := List ((String → Bool) × List ParamObj)

/-- The outer loop of `validate_request_params`: every registered pattern is
tried against the stripped path, and each matching declaration set is
validated in turn against the same accumulating result. -/
def foldRoutes (qd : QueryDict) (path : String) : Registry →
    Parsed × List ErrEntry → Except PyError (Parsed × List ErrEntry)
  | [], st => Except.ok st
  | entry :: rest, st =>
      if entry.1 (lstripSlash path) then
        match foldParams qd entry.2 st with
        | Except.ok st2 => foldRoutes qd path rest st2
        | Except.error e => Except.error e
      else
        foldRoutes qd path rest st

/-- Model of `QueryParamRegistry.validate_request_params(path, query_dict)`. -/
def validate_request_params (registry : Registry) (path : String)
    (qd : QueryDict) : Except PyError (Parsed × List ErrEntry) :=
  foldRoutes qd path registry ([], [])

/-- Validation over a plain list of (already matched) declaration sets, in
order — the reference point for claim C9. -/
def foldMatched (qd : QueryDict) : List (List ParamObj) →
    Parsed × List ErrEntry → Except PyError (Parsed × List ErrEntry)
  | [], st => Except.ok st
  | ps :: rest, st =>
      match foldParams qd ps st with
      | Except.ok st2 => foldMatched qd rest st2
      | Except.error e => Except.error e

/-! ## Claims

Each claim of the specification is settled by one theorem below. -/

/-- C10: constructing a Boolean declaration with `required=True` and
`explicit=False` always fails at construction time with the `ValueError`
of `Bool.__init__` (a ConfigurationError in the sense of the spec),
whatever the name, case flag and custom tokens are. -/
theorem claim_C10 (name : String) (ignore_case : Bool)
    (custom_bool : Option (List String)) :
    Bool.init name true false ignore_case custom_bool =
      Except.error (PyError.valueError "explicit must be True if required is True") :=
  rfl

/-- C5: with default tokens, `Bool.validate_all ["true"]` and (case
insensitively) `["True"]` give `[true]`; with case sensitivity enabled,
`["TRUE"]` fails; the empty string gives `[true]` when `explicit=False`
and fails when `explicit=True`. -/
theorem claim_C5 :
    (Bool.init "b" false false true none).bind
        (fun st => Bool.validate_all st ["true"]) = Except.ok [Value.bool true]
    ∧ (Bool.init "b" false false true none).bind
        (fun st => Bool.validate_all st ["True"]) = Except.ok [Value.bool true]
    ∧ (Bool.init "b" false false false none).bind
        (fun st => Bool.validate_all st ["TRUE"]) =
        Except.error (PyError.invalidQueryParameter
          "Expected one of [true, false], got TRUE")
    ∧ (Bool.init "b" false false true none).bind
        (fun st => Bool.validate_all st [""]) = Except.ok [Value.bool true]
    ∧ (Bool.init "b" false true true none).bind
        (fun st => Bool.validate_all st [""]) =
        Except.error (PyError.invalidQueryParameter
          "Expected one of [true, false], got ") :=
  ⟨rfl, rfl, rfl, rfl, rfl⟩

/-- C7: a `Date` declaration with separator `/` accepts `2024/01/31` and
returns the calendar date that ISO `2024-01-31` denotes, and rejects
`2024-13-01`. -/
theorem claim_C7 :
    (Date.new "d" false false none none none none '/').bind
        (fun sp => QueryParam.validate_single (Date.parse sp.1) sp.2
          (Value.str "2024/01/31")) = Except.ok (Value.date 2024 1 31)
    ∧ dateFromIso "2024-01-31" = some (2024, 1, 31)
    ∧ (Date.new "d" false false none none none none '/').bind
        (fun sp => QueryParam.validate_single (Date.parse sp.1) sp.2
          (Value.str "2024-13-01")) =
        Except.error (PyError.invalidQueryParameter "") :=
  ⟨rfl, rfl, rfl⟩

/-- C3 (code bug): constructing a bounded declaration with only a minimum
(or only a maximum) does not succeed.  `BoundedParam.__init__` appends
`self._check_lower_bound` / `self._check_upper_bound`, but the methods are
defined as `check_lower_bound` / `check_upper_bound` (no underscore), so
construction raises `AttributeError`; `Str.__init__` fails the same way for
`min_length`, and with only a `max_length` it evaluates `min_length < 1`
with `min_length = None`, a `TypeError`.  This theorem evaluates the
constructors at the failing inputs. -/
theorem claim_C3_bug :
    Int.new 1 "x" false false none none (some (Value.int 1)) none true true =
      Except.error (PyError.attributeError "_check_lower_bound")
    ∧ Int.new 1 "x" false false none none none (some (Value.int 7)) true true =
      Except.error (PyError.attributeError "_check_upper_bound")
    ∧ Str.init "x" false false none none (some 1) none =
      Except.error (PyError.attributeError "_check_min_length")
    ∧ Str.init "x" false false none none none (some 5) =
      Except.error (PyError.typeError
        "not supported between instances of NoneType and int") :=
  ⟨rfl, rfl, rfl, rfl⟩

/-- Lemma: `PositiveInt.__new__` (inherited from `Int`) with `min_value == 0`
calls the `PositiveInt` constructor again: unbounded recursion. -/
theorem positiveInt_new_zero_min (min_value : Option Value)
    (hz : pyEqZero min_value = true) :
    ∀ (fuel : Nat) (name : String) (required many : Bool)
      (choices : Option (List String)) (validators : Option (List CustomVal))
      (max_value : Option Value) (alz aps : Bool),
      PositiveInt.new fuel name required many choices validators min_value
        max_value alz aps = Except.error PyError.recursionError := by
  intro fuel
  induction fuel with
  | zero => intro name required many choices validators max_value alz aps; rfl
  | succ n ih =>
      intro name required many choices validators max_value alz aps
      simp only [PositiveInt.new, hz, if_true]
      exact ih name required many choices validators max_value alz aps

/-- C6 (code bug): constructing an `Int` with `min_value=0` never yields a
declaration at all.  `Int.__new__` substitutes `PositiveInt(name, **kwargs)`,
whose inherited `__new__` sees `min_value == 0` and substitutes again,
recursing until the Python recursion limit: construction fails with
`RecursionError` for every recursion limit (fuel), so the declaration never
acquires any semantics, positive-only or otherwise. -/
theorem claim_C6_bug (fuel : Nat) (name : String) (required many : Bool)
    (choices : Option (List String)) (validators : Option (List CustomVal))
    (max_value : Option Value) (alz aps : Bool) :
    Int.new fuel name required many choices validators (some (Value.int 0))
      max_value alz aps = Except.error PyError.recursionError := by
  cases fuel with
  | zero => rfl
  | succ n =>
      simp only [Int.new]
      exact positiveInt_new_zero_min (some (Value.int 0)) rfl n name required
        many choices validators max_value alz aps

/-- C2: a declaration not marked `many` (`Bool` excepted, which overrides
`validate_all`) rejects two or more raw values with the "Expected 1 value"
error before validating anything, while `Bool.validate_all` never errors on
multiplicity: on a nonempty value list it equals validating only the last
supplied value. -/
theorem claim_C2 :
    (∀ (parse : Value → Except PyError Value) (st : PState) (vs : List String),
      st.many = false → 2 ≤ vs.length →
      QueryParam.validate_all parse st vs =
        Except.error (PyError.invalidQueryParameter
          ("Expected 1 value, got " ++ toString vs.length)))
    ∧ (∀ (st : BoolState) (vs : List String) (h : vs ≠ []),
      Bool.validate_all st vs = Bool.validate_all st [vs.getLast h]) := by
  constructor
  · intro parse st vs hmany hlen
    have hne : (vs.length == 1) = false := by
      simp only [beq_eq_false_iff_ne]
      omega
    simp [QueryParam.validate_all, hmany, hne]
  · intro st vs h
    simp only [Bool.validate_all, List.getLast?_eq_getLast_of_ne_nil h,
      @List.getLast?_eq_getLast_of_ne_nil _ [vs.getLast h] (by simp),
      List.getLast_singleton]

/-- Witness for C2 at concrete inputs: a plain non-`many` state with two
raw values, and a default Boolean state with two raw values. -/
theorem claim_C2_witness :
    QueryParam.validate_all Int.parse
        (PState.mk "x" false false [] [] none none none none) ["1", "2"] =
      Except.error (PyError.invalidQueryParameter
        ("Expected 1 value, got " ++ toString (["1", "2"] : List String).length))
    ∧ Bool.validate_all (BoolState.mk "b" "true" "false" false false true)
        ["false", "true"] =
      Bool.validate_all (BoolState.mk "b" "true" "false" false false true)
        [(["false", "true"] : List String).getLast (by simp)] :=
  ⟨claim_C2.1 Int.parse (PState.mk "x" false false [] [] none none none none)
      ["1", "2"] rfl (by simp),
   claim_C2.2 (BoolState.mk "b" "true" "false" false false true)
      ["false", "true"] (by simp)⟩

/-- With no checks accumulated yet, `validate_single` is just `parse`. -/
theorem validate_single_no_checks (parse : Value → Except PyError Value)
    (st : PState) (hc : st.value_checks = []) (v : Value) :
    QueryParam.validate_single parse st v = parse v := by
  unfold QueryParam.validate_single
  cases hp : parse v with
  | error e => rfl
  | ok parsed =>
      simp only [runChecks, hc, runChecksList]
      rfl

/-- A `mapM` whose every application succeeds returns `ok`, with one result
per input. -/
theorem mapM_ok_of_forall (f : String → Except PyError Value) :
    ∀ (cs : List String), (∀ c ∈ cs, (f c).isOk = true) →
    ∃ vals : List Value, cs.mapM f = Except.ok vals ∧ vals.length = cs.length := by
  intro cs
  induction cs with
  | nil => intro _; exact ⟨[], rfl, rfl⟩
  | cons c rest ih =>
      intro hall
      have hc : (f c).isOk = true := hall c (List.mem_cons_self c rest)
      obtain ⟨v, hv⟩ : ∃ v, f c = Except.ok v := by
        cases hfc : f c with
        | error e => rw [hfc] at hc; simp [Except.isOk, Except.toBool] at hc
        | ok v => exact ⟨v, rfl⟩
      obtain ⟨vs, hvs, hlen⟩ := ih (fun x hx => hall x (List.mem_cons_of_mem c hx))
      refine ⟨v :: vs, ?_, by simp [hlen]⟩
      rw [List.mapM_cons, hv, hvs]
      rfl

/-- Lemma: `pydedup` of a nonempty list is nonempty. -/
theorem pydedup_ne_nil (l : List Value) (h : l ≠ []) : pydedup l ≠ [] := by
  have grow : ∀ (xs : List Value) (acc : List Value), acc ≠ [] →
      xs.foldl (fun acc v => if v ∈ acc then acc else acc ++ [v]) acc ≠ [] := by
    intro xs
    induction xs with
    | nil => intro acc hacc; exact hacc
    | cons x rest ih =>
        intro acc hacc
        simp only [List.foldl_cons]
        by_cases hmem : x ∈ acc
        · simp only [hmem, if_true]; exact ih acc hacc
        · simp only [hmem, if_false]; exact ih (acc ++ [x]) (by simp)
  match l, h with
  | v :: rest, _ =>
      unfold pydedup
      simp only [List.foldl_cons, List.not_mem_nil, if_false, List.nil_append]
      exact grow rest [v] (by simp)

/-- C8: constructing a bounded declaration that supplies both a (nonempty,
individually parseable) choice set and a minimum or maximum bound always
fails at construction time with a `ValueError` (a ConfigurationError in
the sense of the spec): either the `choices`/`validators` exclusivity
check or the `choices`/bounds exclusivity check of `BoundedParam.__init__`
fires, both before any bound is stored. -/
theorem claim_C8 (table : List (String × Check))
    (parse : Value → Except PyError Value) (name : String)
    (required many : Bool) (cs : List String)
    (validators : Option (List CustomVal)) (min_value max_value : Option Value)
    (hne : cs ≠ [])
    (hparse : ∀ c ∈ cs, (parse (Value.str c)).isOk = true)
    (hbound : (min_value.isSome || max_value.isSome) = true) :
    ∃ msg, BoundedParam.init table parse name required many (some cs)
      validators min_value max_value = Except.error (PyError.valueError msg) := by
  cases validators with
  | some fs =>
      refine ⟨"Only one of choices or validators is allowed", ?_⟩
      rfl
  | none =>
      refine ⟨"min_value and/or max_value can not be clubbed with choices", ?_⟩
      have hparse2 : ∀ c ∈ cs,
          (QueryParam.validate_single parse
            (PState.mk name required many [] [] none none none none)
            (Value.str c)).isOk = true := by
        intro c hc
        rw [validate_single_no_checks parse _ rfl]
        exact hparse c hc
      obtain ⟨vals, hvals, hlen⟩ := mapM_ok_of_forall _ cs hparse2
      have hvne : vals ≠ [] := by
        intro hv
        rw [hv] at hlen
        exact hne (List.length_eq_zero.mp hlen.symm)
      have hdne : pydedup vals ≠ [] := pydedup_ne_nil vals hvne
      have hisEmpty : (pydedup vals).isEmpty = false := by
        cases hpd : pydedup vals with
        | nil => exact absurd hpd hdne
        | cons a b => rfl
      have hinit : QueryParam.init parse name required many (some cs) none =
          Except.ok (PState.mk name required many (pydedup vals)
            [Check.oneOfChoices] none none none none) := by
        simp only [QueryParam.init]
        rw [hvals]
        rfl
      unfold BoundedParam.init
      rw [hinit]
      simp only [Bind.bind, Except.bind, hisEmpty, hbound]
      simp [hisEmpty, hbound]

/-- Witness for C8 at a concrete input: an `Int`-style bounded declaration
with choices `["1", "2"]` and a minimum. -/
theorem claim_C8_witness :
    ∃ msg, BoundedParam.init Number.methodTable Int.parse "x" false false
      (some ["1", "2"]) none (some (Value.int 3)) none =
      Except.error (PyError.valueError msg) :=
  claim_C8 Number.methodTable Int.parse "x" false false ["1", "2"] none
    (some (Value.int 3)) none (by simp)
    (by intro c hc; fin_cases hc <;> rfl) rfl

/-! ### Round-trip lemmas for C4 -/

/-- Folding the digit-accumulation step over a decimal digit string. -/
def digitsVal (l : List Char) : Nat :=
  l.foldl (fun acc c => 10 * acc + digitVal c) 0

/-- Lemma: `digitChar` of a digit is an ASCII digit and `digitVal` recovers it. -/
theorem digitChar_props (d : Nat) (h : d < 10) :
    isDigitChar (digitChar d) = true ∧ digitVal (digitChar d) = d := by
  interval_cases d <;> exact ⟨rfl, rfl⟩

/-- Every character `natCharsAux` produces is a decimal digit. -/
theorem natCharsAux_digits (fuel : Nat) :
    ∀ (m : Nat), m < fuel → ∀ c ∈ natCharsAux fuel m, isDigitChar c = true := by
  induction fuel with
  | zero => intro m hm; omega
  | succ n ih =>
      intro m hm c hc
      by_cases h10 : m < 10
      · simp only [natCharsAux, h10, if_true, List.mem_singleton] at hc
        rw [hc]
        exact (digitChar_props m h10).1
      · simp only [natCharsAux, h10, if_false, List.mem_append,
          List.mem_singleton] at hc
        rcases hc with hc | hc
        · have hd : m / 10 < m := Nat.div_lt_self (by omega) (by omega)
          exact ih (m / 10) (by omega) c hc
        · rw [hc]
          exact (digitChar_props (m % 10) (Nat.mod_lt m (by omega))).1

/-- Lemma: `natCharsAux` with enough fuel is nonempty. -/
theorem natCharsAux_ne_nil (fuel : Nat) :
    ∀ (m : Nat), m < fuel → natCharsAux fuel m ≠ [] := by
  induction fuel with
  | zero => intro m hm; omega
  | succ n _ =>
      intro m hm
      by_cases h10 : m < 10
      · simp only [natCharsAux, h10, if_true]
        intro hnil
        exact absurd (congrArg List.length hnil) (by simp)
      · simp only [natCharsAux, h10, if_false]
        intro hnil
        exact absurd (congrArg List.length hnil) (by simp)

/-- The digit string `natCharsAux` produces evaluates back to its input. -/
theorem natCharsAux_val (fuel : Nat) :
    ∀ (m : Nat), m < fuel → digitsVal (natCharsAux fuel m) = m := by
  induction fuel with
  | zero => intro m hm; omega
  | succ n ih =>
      intro m hm
      by_cases h10 : m < 10
      · simp only [natCharsAux, h10, if_true, digitsVal, List.foldl_cons,
          List.foldl_nil, Nat.mul_zero, Nat.zero_add]
        exact (digitChar_props m h10).2
      · have hd : m / 10 < m := Nat.div_lt_self (by omega) (by omega)
        have ihv := ih (m / 10) (by omega)
        simp only [natCharsAux, h10, if_false, digitsVal, List.foldl_append,
          List.foldl_cons, List.foldl_nil]
        simp only [digitsVal] at ihv
        rw [ihv, (digitChar_props (m % 10) (Nat.mod_lt m (by omega))).2]
        omega

/-- An all-digit list is a valid integer-literal tail. -/
theorem okDigitsTail_of_digits :
    ∀ (l : List Char), (∀ c ∈ l, isDigitChar c = true) → okDigitsTail l = true := by
  intro l
  induction l with
  | nil => intro _; rfl
  | cons c rest ih =>
      intro hall
      have hcd : isDigitChar c = true := hall c (List.mem_cons_self c rest)
      have hcu : ¬(c = '_') := by
        intro he
        rw [he] at hcd
        exact absurd hcd (by decide)
      unfold okDigitsTail
      rw [if_neg hcu, hcd, ih (fun x hx => hall x (List.mem_cons_of_mem c hx))]
      rfl

/-- A nonempty all-digit list is a valid (unsigned) integer literal. -/
theorem okDigitsU_of_digits (l : List Char) (hne : l ≠ [])
    (hall : ∀ c ∈ l, isDigitChar c = true) : okDigitsU l = true := by
  match l, hne with
  | c :: rest, _ =>
      simp only [okDigitsU, hall c (List.mem_cons_self c rest), Bool.true_and]
      exact okDigitsTail_of_digits rest (fun x hx => hall x (List.mem_cons_of_mem c hx))

/-- On an all-digit list, `udigitsVal` is plain digit evaluation (no
underscores to remove). -/
theorem udigitsVal_of_digits (l : List Char)
    (hall : ∀ c ∈ l, isDigitChar c = true) : udigitsVal l = digitsVal l := by
  unfold udigitsVal digitsVal
  have hfil : l.filter (fun c => c != '_') = l := by
    rw [List.filter_eq_self]
    intro a ha
    have had := hall a ha
    simp only [bne_iff_ne, ne_eq]
    intro he
    rw [he] at had
    exact absurd had (by decide)
  rw [hfil]

/-- Lemma: `dropWhile` of a predicate false on every element is the identity. -/
theorem dropWhile_eq_self_of_none (p : Char → Bool) :
    ∀ (l : List Char), (∀ c ∈ l, p c = false) → l.dropWhile p = l := by
  intro l
  induction l with
  | nil => intro _; rfl
  | cons c rest _ =>
      intro hall
      rw [List.dropWhile_cons_of_neg]
      simp [hall c (List.mem_cons_self c rest)]

/-- Trimming whitespace from a whitespace-free list is the identity. -/
theorem trimWS_eq_self (l : List Char) (hall : ∀ c ∈ l, isSpaceChar c = false) :
    trimWS l = l := by
  unfold trimWS
  rw [dropWhile_eq_self_of_none isSpaceChar l hall,
    dropWhile_eq_self_of_none isSpaceChar l.reverse
      (fun c hc => hall c (List.mem_reverse.mp hc)),
    List.reverse_reverse]

/-- All-in-one digit facts for `natChars`. -/
theorem natChars_digits (m : Nat) : ∀ c ∈ natChars m, isDigitChar c = true :=
  natCharsAux_digits (m + 1) m (by omega)

/-- Lemma: `natChars` is nonempty. -/
theorem natChars_ne_nil (m : Nat) : natChars m ≠ [] :=
  natCharsAux_ne_nil (m + 1) m (by omega)

/-- Lemma: `natChars` evaluates back to its input. -/
theorem natChars_val (m : Nat) : digitsVal (natChars m) = m :=
  natCharsAux_val (m + 1) m (by omega)

/-- The digits of `natChars` are whitespace-free. -/
theorem natChars_no_space (m : Nat) : ∀ c ∈ natChars m, isSpaceChar c = false := by
  intro c hc
  have hd := natChars_digits m c hc
  by_contra hs
  simp only [Bool.not_eq_false] at hs
  simp only [isSpaceChar, Bool.or_eq_true, beq_iff_eq] at hs
  rcases hs with ((((h | h) | h) | h) | h) | h <;> rw [h] at hd <;> exact absurd hd (by decide)

/-- Parsing the decimal rendering of a natural number. -/
theorem pyParseIntCore_natChars (m : Nat) :
    pyParseIntCore (natChars m) = some (Int.ofNat m) := by
  have hdig : ∀ c ∈ natChars m, isDigitChar c = true :=
    natCharsAux_digits (m + 1) m (by omega)
  have hne : natChars m ≠ [] := natCharsAux_ne_nil (m + 1) m (by omega)
  have hval : digitsVal (natChars m) = m := natCharsAux_val (m + 1) m (by omega)
  match hl : natChars m, hne with
  | c :: rest, _ =>
      rw [hl] at hdig hval
      have hcd : isDigitChar c = true := hdig c (List.mem_cons_self c rest)
      have hplus : ¬(c = '+') := by
        intro he; rw [he] at hcd; exact absurd hcd (by decide)
      have hminus : ¬(c = '-') := by
        intro he; rw [he] at hcd; exact absurd hcd (by decide)
      have hok : okDigitsU (c :: rest) = true :=
        okDigitsU_of_digits (c :: rest) (by simp) hdig
      simp only [pyParseIntCore, if_neg hplus, if_neg hminus, hok, if_true,
        udigitsVal_of_digits (c :: rest) hdig, hval]

/-- Lemma: `pyParseIntCore` on a minus sign followed by a literal body. -/
theorem pyParseIntCore_neg_cons (l : List Char) :
    pyParseIntCore ('-' :: l) =
      if okDigitsU l then some (-(Int.ofNat (udigitsVal l))) else none := rfl

/-- Round-trip through the Python `int()` model: parsing the decimal string
rendering of any integer returns that integer. -/
theorem pyParseInt_renderInt (n : Int) : pyParseInt (renderInt n) = some n := by
  by_cases hneg : n < 0
  · have hchars : (renderInt n).toList = '-' :: natChars (-n).toNat := by
      simp only [renderInt, hneg, if_true, renderNat]
      rfl
    unfold pyParseInt
    rw [hchars, trimWS_eq_self, pyParseIntCore_neg_cons]
    · have hok : okDigitsU (natChars (-n).toNat) = true :=
        okDigitsU_of_digits _ (natChars_ne_nil _) (natChars_digits _)
      rw [if_pos hok, udigitsVal_of_digits _ (natChars_digits _), natChars_val]
      have h2 : Int.ofNat (-n).toNat = -n := Int.toNat_of_nonneg (by omega)
      rw [h2]
      simp
    · intro c hc
      rcases List.mem_cons.mp hc with h | h
      · rw [h]; rfl
      · exact natChars_no_space (-n).toNat c h
  · have hchars : (renderInt n).toList = natChars n.toNat := by
      simp only [renderInt, hneg, if_false, renderNat]
      rfl
    unfold pyParseInt
    rw [hchars, trimWS_eq_self _ (natChars_no_space n.toNat),
      pyParseIntCore_natChars]
    have h2 : Int.ofNat n.toNat = n := Int.toNat_of_nonneg (by omega)
    rw [h2]

/-- C4 (round-trip): an `Int` declaration constructed with no constraints
accepts the decimal string rendering of every integer `n` and
`validate_single` returns exactly `n`. -/
theorem claim_C4 (fuel : Nat) (name : String) (required many : Bool) (n : Int) :
    (Int.new (fuel + 1) name required many none none none none true true).bind
      (fun st => QueryParam.validate_single Int.parse st
        (Value.str (renderInt n))) = Except.ok (Value.int n) := by
  have hcons : Int.new (fuel + 1) name required many none none none none true true =
      Except.ok (PState.mk name required many [] [] none none none none) := rfl
  rw [hcons]
  show QueryParam.validate_single Int.parse
    (PState.mk name required many [] [] none none none none)
    (Value.str (renderInt n)) = Except.ok (Value.int n)
  rw [validate_single_no_checks Int.parse _ rfl]
  simp only [Int.parse, pyParseInt_renderInt n]

/-! ### Registry lemmas for C1 and C9 -/

/-- Routes whose pattern does not match the path leave the accumulating
result untouched. -/
theorem foldRoutes_skip (qd : QueryDict) (path : String) :
    ∀ (entries : Registry) (st : Parsed × List ErrEntry),
    (∀ e ∈ entries, e.1 (lstripSlash path) = false) →
    foldRoutes qd path entries st = Except.ok st := by
  intro entries
  induction entries with
  | nil => intro st _; rfl
  | cons e rest ih =>
      intro st hall
      have he : e.1 (lstripSlash path) = false :=
        hall e (List.mem_cons_self e rest)
      simp only [foldRoutes, he, Bool.false_eq_true, if_false]
      exact ih st (fun x hx => hall x (List.mem_cons_of_mem e hx))

/-- A run of non-matching entries at the front of the registry can be dropped. -/
theorem foldRoutes_skip_front (qd : QueryDict) (path : String) :
    ∀ (pre rest : Registry) (st : Parsed × List ErrEntry),
    (∀ e ∈ pre, e.1 (lstripSlash path) = false) →
    foldRoutes qd path (pre ++ rest) st = foldRoutes qd path rest st := by
  intro pre
  induction pre with
  | nil => intro rest st _; rfl
  | cons e tail ih =>
      intro rest st hall
      have he : e.1 (lstripSlash path) = false :=
        hall e (List.mem_cons_self e tail)
      simp only [List.cons_append, foldRoutes, he, Bool.false_eq_true, if_false]
      exact ih rest st (fun x hx => hall x (List.mem_cons_of_mem e hx))

/-- The registry loop is the loop over exactly the matching declaration
sets, in registration order. -/
theorem foldRoutes_eq_foldMatched (qd : QueryDict) (path : String) :
    ∀ (reg : Registry) (st : Parsed × List ErrEntry),
    foldRoutes qd path reg st =
      foldMatched qd
        ((reg.filter (fun e => e.1 (lstripSlash path))).map (fun e => e.2)) st := by
  intro reg
  induction reg with
  | nil => intro st; rfl
  | cons e rest ih =>
      intro st
      by_cases hm : e.1 (lstripSlash path) = true
      · have hfe : List.filter (fun x => x.1 (lstripSlash path)) (e :: rest) =
            e :: List.filter (fun x => x.1 (lstripSlash path)) rest := by
          simp [List.filter_cons, hm]
        rw [hfe, List.map_cons]
        simp only [foldRoutes, foldMatched, hm, if_true]
        cases hfp : foldParams qd e.2 st with
        | ok st2 => exact ih st2
        | error err => rfl
      · have hm2 : e.1 (lstripSlash path) = false := by
          cases hv : e.1 (lstripSlash path)
          · rfl
          · exact absurd hv hm
        have hfe : List.filter (fun x => x.1 (lstripSlash path)) (e :: rest) =
            List.filter (fun x => x.1 (lstripSlash path)) rest := by
          simp [List.filter_cons, hm2]
        rw [hfe]
        simp only [foldRoutes, hm2, Bool.false_eq_true, if_false]
        exact ih st

/-- Lemma: `ErrEntry.invalid` is never an `ErrEntry.missing`. -/
theorem invalid_beq_missing (a b c : String) :
    (ErrEntry.invalid a b == ErrEntry.missing c) = false := by
  rw [beq_eq_false_iff_ne]
  intro h
  exact ErrEntry.noConfusion h

/-- Comparing two missing-errors compares the tagged names. -/
theorem missing_beq_missing (a b : String) :
    (ErrEntry.missing a == ErrEntry.missing b) = (a == b) := by
  by_cases h : a = b
  · subst h; simp
  · have h1 : (ErrEntry.missing a == ErrEntry.missing b) = false := by
      rw [beq_eq_false_iff_ne]
      intro hc
      exact h (by injection hc)
    have h2 : (a == b) = false := beq_eq_false_iff_ne.mpr h
    rw [h1, h2]

/-- Touching a defaultdict entry under a different key preserves the
absence of a key. -/
theorem findEntry_touch_none (p : Parsed) (k name : String)
    (hne : (k == name) = false) (h : p.find? (fun e => e.1 == name) = none) :
    (dictTouch p k).find? (fun e => e.1 == name) = none := by
  unfold dictTouch
  by_cases hex : p.any (fun e => e.1 == k) = true
  · rw [if_pos hex]; exact h
  · rw [if_neg hex, List.find?_eq_none]
    rw [List.find?_eq_none] at h
    intro x hx
    rcases List.mem_append.mp hx with hxp | hxk
    · exact h x hxp
    · rw [List.mem_singleton.mp hxk]
      simp only [hne, Bool.false_eq_true, not_false_eq_true]

/-- Extending defaultdict entries preserves the absence of a key (the
entry keys are unchanged). -/
theorem findEntry_extend_none (p : Parsed) (k : String) (vals : List Value)
    (name : String) (h : p.find? (fun e => e.1 == name) = none) :
    (dictExtend p k vals).find? (fun e => e.1 == name) = none := by
  rw [List.find?_eq_none] at h ⊢
  intro x hx
  obtain ⟨e, he, hxe⟩ := List.mem_map.mp hx
  have hx1 : x.1 = e.1 := by
    rw [← hxe]
    by_cases hek : (e.1 == k) = true
    · rw [if_pos hek]
    · rw [if_neg hek]
  have := h e he
  rw [hx1]
  exact this

/-- Accounting for the inner parameter loop when `name` is absent from the
request: each declared parameter named `name` and required contributes
exactly one missing error, no other parameter contributes a missing error
tagged `name`, and no `parsed` entry for `name` is ever created. -/
theorem foldParams_absent (qd : QueryDict) (name : String)
    (habs : qd.hasKey name = false) :
    ∀ (ps : List ParamObj) (st res : Parsed × List ErrEntry),
    foldParams qd ps st = Except.ok res →
    (res.2.countP (fun e => e == ErrEntry.missing name) =
      st.2.countP (fun e => e == ErrEntry.missing name) +
      ps.countP (fun q => q.name == name && q.required))
    ∧ (st.1.find? (fun e => e.1 == name) = none →
       res.1.find? (fun e => e.1 == name) = none) := by
  intro ps
  induction ps with
  | nil =>
      intro st res h
      simp only [foldParams] at h
      injection h with h2
      subst h2
      simp [List.countP_nil]
  | cons p rest ih =>
      intro st res h
      simp only [foldParams] at h
      cases hpp : processParam qd st p with
      | error e => rw [hpp] at h; simp at h
      | ok st2 =>
          rw [hpp] at h
          obtain ⟨hcount, hfind⟩ := ih st2 res h
          unfold processParam at hpp
          by_cases hk : qd.hasKey p.name = true
          · -- the parameter is present, so its name differs from `name`
            have hpn : (p.name == name) = false := by
              by_cases hq : p.name = name
              · rw [hq] at hk; rw [hk] at habs; exact absurd habs (by simp)
              · exact beq_eq_false_iff_ne.mpr hq
            rw [if_pos hk] at hpp
            have hpred : (p.name == name && p.required) = false := by
              simp only [hpn, Bool.false_and]
            cases hva : p.validateAll (qd.getlist p.name) with
            | ok vals =>
                rw [hva] at hpp
                injection hpp with hst2
                have h22 : st2.2 = st.2 := by rw [← hst2]
                constructor
                · rw [hcount, h22, List.countP_cons]
                  simp only [hpred, Bool.false_eq_true, if_false]
                  omega
                · intro hnone
                  apply hfind
                  rw [← hst2]
                  exact findEntry_extend_none _ _ _ _
                    (findEntry_touch_none _ _ _ hpn hnone)
            | error err =>
                rw [hva] at hpp
                cases err with
                | invalidQueryParameter msg =>
                    injection hpp with hst2
                    constructor
                    · rw [hcount, ← hst2, List.countP_cons, List.countP_append]
                      simp only [hpred, List.countP_cons, List.countP_nil,
                        invalid_beq_missing, Bool.false_eq_true, if_false]
                      omega
                    · intro hnone
                      apply hfind
                      rw [← hst2]
                      exact findEntry_touch_none _ _ _ hpn hnone
                | typeError msg => simp at hpp
                | valueError msg => simp at hpp
                | attributeError attr => simp at hpp
                | indexError => simp at hpp
                | recursionError => simp at hpp
          · have hk2 : qd.hasKey p.name = false := by
              cases hv : qd.hasKey p.name
              · rfl
              · exact absurd hv hk
            rw [if_neg (by rw [hk2]; exact Bool.false_ne_true)] at hpp
            by_cases hreq : p.required = true
            · rw [if_pos hreq] at hpp
              injection hpp with hst2
              constructor
              · rw [hcount, ← hst2, List.countP_cons, List.countP_append]
                simp only [List.countP_cons, List.countP_nil,
                  missing_beq_missing, hreq, Bool.and_true]
                by_cases hb : (p.name == name) = true
                · simp only [hb, if_true]
                  omega
                · simp only [hb, if_false]
                  omega
              · intro hnone
                apply hfind
                rw [← hst2]
                exact hnone
            · rw [if_neg hreq] at hpp
              injection hpp with hst2
              have hpred : (p.name == name && p.required) = false := by
                have hrf : p.required = false := by
                  cases hv : p.required
                  · rfl
                  · exact absurd hv hreq
                simp only [hrf, Bool.and_false]
              constructor
              · rw [hcount, ← hst2, List.countP_cons]
                simp only [hpred, Bool.false_eq_true, if_false]
                omega
              · intro hnone
                apply hfind
                rw [← hst2]
                exact hnone

/-- Among declarations whose names are unique, the one required occurrence
of `p` is counted exactly once. -/
theorem countP_name_required (ps : List ParamObj) (p : ParamObj)
    (hmem : p ∈ ps) (hreq : p.required = true)
    (huniq : ps.countP (fun q => q.name == p.name) = 1) :
    ps.countP (fun q => q.name == p.name && q.required) = 1 := by
  have hle : ps.countP (fun q => q.name == p.name && q.required) ≤
      ps.countP (fun q => q.name == p.name) := by
    apply List.countP_mono_left
    intro a _ ha
    have ha2 := ha
    simp only [Bool.and_eq_true] at ha2
    exact ha2.1
  have hpos : 0 < ps.countP (fun q => q.name == p.name && q.required) := by
    rw [List.countP_pos_iff]
    exact ⟨p, hmem, by simp [hreq]⟩
  omega

/-- C1: when registration is disjoint (exactly one registered pattern
matches the path) and a route declares a required parameter, unique by
name in its declaration set, whose name is absent from the raw multi-map,
the returned error list contains exactly one missing-parameter error
tagged with that name and the parsed-values map has no entry for it. -/
theorem claim_C1 (pre post : Registry) (pat : String → Bool)
    (params : List ParamObj) (p : ParamObj) (path : String) (qd : QueryDict)
    (parsed : Parsed) (errors : List ErrEntry)
    (hpre : ∀ e ∈ pre, e.1 (lstripSlash path) = false)
    (hpost : ∀ e ∈ post, e.1 (lstripSlash path) = false)
    (hpat : pat (lstripSlash path) = true)
    (hmem : p ∈ params) (hreq : p.required = true)
    (habs : qd.hasKey p.name = false)
    (huniq : params.countP (fun q => q.name == p.name) = 1)
    (hres : validate_request_params (pre ++ (pat, params) :: post) path qd =
      Except.ok (parsed, errors)) :
    errors.countP (fun e => e == ErrEntry.missing p.name) = 1
    ∧ parsed.find? (fun e => e.1 == p.name) = none := by
  unfold validate_request_params at hres
  rw [foldRoutes_skip_front qd path pre _ _ hpre] at hres
  simp only [foldRoutes, hpat, if_true] at hres
  cases hfp : foldParams qd params ([], []) with
  | error e => rw [hfp] at hres; simp at hres
  | ok st2 =>
      rw [hfp] at hres
      have hres1 : foldRoutes qd path post st2 = Except.ok (parsed, errors) := hres
      rw [foldRoutes_skip qd path post st2 hpost] at hres1
      injection hres1 with hres2
      obtain ⟨hcount, hfind⟩ := foldParams_absent qd p.name habs params
        ([], []) st2 hfp
      rw [hres2] at hcount hfind
      constructor
      · rw [hcount, countP_name_required params p hmem hreq huniq]
        simp
      · exact hfind rfl

/-- A concrete required parameter for the C1 witness. -/
def pageParam : ParamObj :=
  ParamObj.mk "page" true (fun _ => Except.ok [])

/-- Witness for C1 at a concrete input: one registered route declaring the
required parameter `page`, an empty query. -/
theorem claim_C1_witness :
    ([ErrEntry.missing "page"].countP
      (fun e => e == ErrEntry.missing pageParam.name) = 1)
    ∧ (([] : Parsed).find? (fun e => e.1 == pageParam.name) = none) :=
  claim_C1 [] [] (fun _ => true) [pageParam] pageParam "/items"
    (QueryDict.mk []) [] [ErrEntry.missing "page"]
    (fun e he => absurd he (List.not_mem_nil e))
    (fun e he => absurd he (List.not_mem_nil e))
    rfl (List.mem_singleton.mpr rfl) rfl rfl rfl rfl

/-- C9 (amended): the registry validates against the declaration sets of
every registered route whose pattern matches the stripped path, in
registration order; routes whose pattern does not match contribute
neither parsed values nor errors. -/
theorem claim_C9_amended (reg : Registry) (path : String) (qd : QueryDict) :
    validate_request_params reg path qd =
      foldMatched qd
        ((reg.filter (fun e => e.1 (lstripSlash path))).map (fun e => e.2))
        ([], []) :=
  foldRoutes_eq_foldMatched qd path reg ([], [])

/-- First registered route of the C9 counterexample: declares only the
optional parameter `a`. -/
def demoRouteOne : List ParamObj :=
  [ParamObj.mk "a" false (fun _ => Except.ok [])]

/-- Second registered route of the C9 counterexample: declares the required
parameter `b` (declared nowhere else). -/
def demoRouteTwo : List ParamObj :=
  [ParamObj.mk "b" true (fun _ => Except.ok [])]

/-- A registry in which both registered patterns match every path. -/
def demoRegistry : Registry :=
  [(fun _ => true, demoRouteOne), (fun _ => true, demoRouteTwo)]

/-- C9 counterexample: with two matching registered routes, validating an
empty query yields the missing-error of the parameter `b` declared under
the SECOND matching route, while the first matching route alone yields no
error — so `validate_request_params` does not validate against the first
matching declaration set only. -/
theorem claim_C9_counterexample :
    validate_request_params demoRegistry "/x" (QueryDict.mk []) =
      Except.ok ([], [ErrEntry.missing "b"])
    ∧ validate_request_params [((fun _ => true : String → Bool), demoRouteOne)]
        "/x" (QueryDict.mk []) = Except.ok ([], []) :=
  ⟨rfl, rfl⟩

end DjangoQP
